import Mathlib

/-!
Verification development for the StreamPoseML pose-parser core
(`pose_parser/pose_parser.py`): a shallow embedding of the
`Joint` / `Angle` / `BlazePoseFrame` / `BlazePoseSequence` data model and its
validation and geometry rules, together with theorems settling the behavioural
claims about that code.

Modelling conventions:
* Python dictionaries are association lists `List (String × PyVal)` with
  first-match lookup; a failed subscript (`d[k]` on a missing key) is the
  untyped Python `KeyError`, modelled as `PoseError.keyError k`, kept distinct
  from the typed `JointError` / `BlazePoseFrameError` / `BlazePoseSequenceError`
  exceptions the module defines.
* Python floats are modelled as rationals `ℚ` inside `Joint` (the frame
  pipeline only copies, adds and halves coordinates); the pure angle
  mathematics (`Angle`, numpy `arccos` / `clip` / `degrees`) is modelled over
  the reals `ℝ`.
* Fallible constructors and methods return `Except PoseError _`.
-/

namespace StreamPoseML

/-- Dynamically typed Python value: integers, floats (as rationals), strings
and string-keyed dictionaries, which is all the raw keypoint records use. -/
inductive PyVal : Type where
  | int (n : ℤ)
  | num (q : ℚ)
  | str (s : String)
  | dict (entries : List (String × PyVal))

/-- First-match association-list lookup, modelling a Python dict subscript. -/
def assocLookup {α : Type} : List (String × α) → String → Option α
  | [], _ => none
  | (k, v) :: rest, key => if k = key then some v else assocLookup rest key

/-- Python `key in d` for a raw dictionary given by its entry list. -/
def dictContains (d : List (String × PyVal)) (key : String) : Bool :=
  (assocLookup d key).isSome

/-- Entry list of a dict value (empty for non-dict values). -/
def PyVal.asDict : PyVal → List (String × PyVal)
  | .dict es => es
  | _ => []

/-- Python `key in v` where `v` is a (dict) value. -/
def PyVal.containsKey (v : PyVal) (key : String) : Bool :=
  dictContains v.asDict key

/-- Python subscript `v[key]` on a (dict) value. -/
def PyVal.getKey (v : PyVal) (key : String) : Option PyVal :=
  assocLookup v.asDict key

/-- Python truthiness, as used by `bool(frame_data["joint_positions"])` and by
`if not joint_positions`. -/
def PyVal.truthy : PyVal → Bool
  | .int n => n != 0
  | .num q => q != 0
  | .str s => s != ""
  | .dict es => !es.isEmpty

/-- Errors of the pipeline: the module's three exception classes plus the
untyped Python `KeyError` from a plain dict subscript, and a modelling-level
`valueError` for a coordinate that is not a number (never reached by the
record shapes considered here). -/
inductive PoseError : Type where
  | keyError (key : String)
  | valueError (key : String)
  | jointError (msg : String)
  | frameError (msg : String)
  | sequenceError (msg : String)

/-- Subscript `d[k]` on a raw dictionary, raising `KeyError` when absent. -/
def getItem (d : List (String × PyVal)) (k : String) : Except PoseError PyVal :=
  match assocLookup d k with
  | some v => .ok v
  | none => .error (.keyError k)

/-- Subscript `d[k]` expected to be numeric; coordinate values are modelled as
rationals (`valueError` is a modelling artifact for non-numeric values). -/
def getNum (d : List (String × PyVal)) (k : String) : Except PoseError ℚ :=
  match assocLookup d k with
  | some (.num q) => .ok q
  | some (.int n) => .ok (n : ℚ)
  | some _ => .error (.valueError k)
  | none => .error (.keyError k)

/-- The `required_keys` list of `Joint.__init__`. -/
def jointRequiredKeys : List String :=
  ["x", "y", "z", "x_normalized", "y_normalized", "z_normalized",
   "image_dimensions"]

/-- The `Joint` data structure: one named anatomical point with raw and
image-scaled coordinates (coordinates modelled as rationals, the
`image_dimensions` value stored as the raw Python value, as the source does).
-/
structure Joint where
  name : String
  image_dimensions : PyVal
  x : ℚ
  y : ℚ
  z : ℚ
  x_normalized : ℚ
  y_normalized : ℚ
  z_normalized : ℚ

/-- Embedding of `Joint.__init__`: first the membership test
`if not all([key in required_keys for key in joint_data])` — note it checks
that every key PRESENT in `joint_data` is a recognised one, not that every
required key is present — then the field assignments, whose dict subscripts
raise `KeyError` on a missing key, in source order (`image_dimensions` first,
then `x`, `y`, `z`, `x_normalized`, `y_normalized`, `z_normalized`). -/
def Joint.init (name : String) (joint_data : List (String × PyVal)) :
    Except PoseError Joint :=
  if ¬ (joint_data.all fun kv => jointRequiredKeys.contains kv.1) then
    .error (.jointError "The required data is missing from the joint data dictionary.")
  else do
    let dims ← getItem joint_data "image_dimensions"
    let x ← getNum joint_data "x"
    let y ← getNum joint_data "y"
    let z ← getNum joint_data "z"
    let xn ← getNum joint_data "x_normalized"
    let yn ← getNum joint_data "y_normalized"
    let zn ← getNum joint_data "z_normalized"
    .ok { name := name, image_dimensions := dims, x := x, y := y, z := z,
          x_normalized := xn, y_normalized := yn, z_normalized := zn }

/-- The 33-name anatomical vocabulary. The identical literal appears as
`self.joint_position_names` in `BlazePoseFrame.__init__` and as
`self.joint_positions` in `BlazePoseSequence.__init__` (including the
source's `right_anle` spelling). -/
def jointPositionNames : List String :=
  ["nose", "left_eye_inner", "left_eye", "left_eye_outer", "right_eye_inner",
   "right_eye", "right_eye_outer", "left_ear", "right_ear", "mouth_left",
   "mouth_right", "left_shoulder", "right_shoulder", "left_elbow",
   "right_elbow", "left_wrist", "right_wrist", "left_pinky", "right_pinky",
   "left_index", "right_index", "left_thumb", "right_thumb", "left_hip",
   "right_hip", "left_knee", "right_knee", "left_ankle", "right_anle",
   "left_heel", "right_heel", "left_foot_index", "right_foot_index"]

/-- The `required_joint_keys` list of
`BlazePoseFrame.validate_joint_position_data`. -/
def requiredJointKeys : List String :=
  ["x", "y", "z", "x_normalized", "y_normalized", "z_normalized"]

/-- First key of `keys` missing from the (dict) value `v`, mirroring a Python
loop that raises on the first absent key (`none` when all are present). -/
def firstMissingKey (v : PyVal) : List String → Option String
  | [] => none
  | k :: ks => if v.containsKey k then firstMissingKey v ks else some k

/-- Loop body of `BlazePoseFrame.validate_joint_position_data`: for each
vocabulary joint, the joint must be present and its record must carry every
required coordinate key; the first violation raises a `BlazePoseFrameError`
with the source's message. -/
def validateJointsLoop (joint_positions : PyVal) :
    List String → Except PoseError Bool
  | [] => .ok true
  | joint :: rest =>
    if joint_positions.containsKey joint then
      match firstMissingKey (joint_positions.getKey joint |>.getD (.dict []))
          requiredJointKeys with
      | some k =>
        .error (.frameError (k ++ " missing from " ++ joint ++ " position data"))
      | none => validateJointsLoop joint_positions rest
    else
      .error (.frameError (joint ++ " missing from joint positions dict"))

/-- Embedding of `BlazePoseFrame.validate_joint_position_data`. -/
def validate_joint_position_data (joint_positions : PyVal) :
    Except PoseError Bool :=
  validateJointsLoop joint_positions jointPositionNames

/-- Loop body of `BlazePoseFrame.set_joint_positions`: for each vocabulary
joint, build the `joint_data` dictionary in source order (`image_dimensions`
first, then the six coordinates read from the raw record by plain subscripts)
and construct a `Joint`. -/
def setJointsLoop (image_dimensions : PyVal) (joints_raw : PyVal) :
    List String → Except PoseError (List (String × Joint))
  | [] => .ok []
  | joint :: rest => do
    let jrec ← match joints_raw.getKey joint with
      | some r => Except.ok r
      | none => Except.error (.keyError joint)
    let x ← getItem jrec.asDict "x"
    let y ← getItem jrec.asDict "y"
    let z ← getItem jrec.asDict "z"
    let xn ← getItem jrec.asDict "x_normalized"
    let yn ← getItem jrec.asDict "y_normalized"
    let zn ← getItem jrec.asDict "z_normalized"
    let jd : List (String × PyVal) :=
      [("image_dimensions", image_dimensions), ("x", x), ("y", y), ("z", z),
       ("x_normalized", xn), ("y_normalized", yn), ("z_normalized", zn)]
    let j ← Joint.init joint jd
    let more ← setJointsLoop image_dimensions joints_raw rest
    .ok ((joint, j) :: more)

/-- A 3-component point, as one endpoint of a segment. -/
abbrev Vec3 : Type := ℚ × ℚ × ℚ

/-- A pair of segments (each an ordered pair of endpoints), as returned by
`get_vector` and `get_plumbline_vector`: the raw-coordinate segment and the
image-scaled one. -/
abbrev SegmentPair : Type := (Vec3 × Vec3) × (Vec3 × Vec3)

/-- Lookup in the frame's `joints` mapping; a missing name is a `KeyError`. -/
def jointsGet (joints : List (String × Joint)) (name : String) :
    Except PoseError Joint :=
  match assocLookup joints name with
  | some j => .ok j
  | none => .error (.keyError name)

/-- Embedding of `BlazePoseFrame.get_vector` exactly as written in the
source: `x2, y2, z2` are read from `joint_name1` again (not `joint_name2`),
and the six `*_normalized` locals are assigned from `joint_name2`'s raw
`x`, `y`, `z` attributes (not its `x_normalized`, ... attributes). -/
def get_vector (joints : List (String × Joint))
    (joint_name1 joint_name2 : String) : Except PoseError SegmentPair := do
  let j1 ← jointsGet joints joint_name1
  let x1 := j1.x
  let y1 := j1.y
  let z1 := j1.z
  let x2 := j1.x
  let y2 := j1.y
  let z2 := j1.z
  let vector := ((x1, y1, z1), (x2, y2, z2))
  let j2 ← jointsGet joints joint_name2
  let x1n := j2.x
  let y1n := j2.y
  let z1n := j2.z
  let x2n := j2.x
  let y2n := j2.y
  let z2n := j2.z
  let vector_normalized := ((x1n, y1n, z1n), (x2n, y2n, z2n))
  .ok (vector, vector_normalized)

/-- Embedding of `BlazePoseFrame.get_plumbline_vector`. The source's three
`x1_normalized`, `y1_normalized`, `z1_normalized` lines each lack the opening
parenthesis before the first operand (`... = self.joints[...].x_normalized +
self.joints[...].x_normalized)/2`), a SyntaxError under which the module
cannot load; this embedding repairs them minimally, inserting the opening
parenthesis the neighbouring lines have, and is otherwise line-for-line the
source. -/
def get_plumbline_vector (joints : List (String × Joint)) :
    Except PoseError SegmentPair := do
  let ls ← jointsGet joints "left_shoulder"
  let rs ← jointsGet joints "right_shoulder"
  let lh ← jointsGet joints "left_hip"
  let rh ← jointsGet joints "right_hip"
  let x1 := (ls.x + rs.x) / 2
  let y1 := (ls.y + rs.y) / 2
  let z1 := (ls.z + rs.z) / 2
  let x2 := (lh.x + rh.x) / 2
  let y2 := (lh.y + rh.y) / 2
  let z2 := (lh.z + rh.z) / 2
  let plumbline := ((x1, y1, z1), (x2, y2, z2))
  let x1n := (ls.x_normalized + rs.x_normalized) / 2
  let y1n := (ls.y_normalized + rs.y_normalized) / 2
  let z1n := (ls.z_normalized + rs.z_normalized) / 2
  let x2n := (lh.x_normalized + rh.x_normalized) / 2
  let y2n := (lh.y_normalized + rh.y_normalized) / 2
  let z2n := (lh.z_normalized + rh.z_normalized) / 2
  let plumbline_normalized := ((x1n, y1n, z1n), (x2n, y2n, z2n))
  .ok (plumbline, plumbline_normalized)

/-- Embedding of `BlazePoseFrame.generate_angle_measurements`: raises when
there are no joint positions; otherwise computes `self.plumb_line_vector`
(first component of the result) and falls off the end of the method, so its
return value — which `__init__` stores into `self.angles` — is Python `None`
(second component `none`). -/
def generate_angle_measurements (has_joint_positions : Bool)
    (joints : List (String × Joint)) :
    Except PoseError (Option SegmentPair × Option (List (String × Unit))) :=
  if ¬ has_joint_positions then
    .error (.frameError "There are no joint data to generate angles from")
  else do
    let pl ← get_plumbline_vector joints
    .ok (some pl, none)

/-- The `BlazePoseFrame` record. `angles` holds either a Python dict
(`some entries`) or Python `None` (`none`); `joint_positions_raw` and
`plumb_line_vector` are attributes only assigned on the joints-present path.
-/
structure BlazePoseFrame where
  frame_number : PyVal
  has_joint_positions : Bool
  image_dimensions : PyVal
  sequence_id : PyVal
  sequence_source : PyVal
  joints : List (String × Joint)
  angles : Option (List (String × Unit))
  joint_positions_raw : Option PyVal
  plumb_line_vector : Option SegmentPair

/-- Embedding of `BlazePoseFrame.__init__`: reads the five top-level fields
by plain subscript in source order (`frame_number`, then the truthiness of
`joint_positions`, then `image_dimensions`, `sequence_id`,
`sequence_source`); `joints` and `angles` start as empty dicts; when joint
positions are present it validates them, builds the `joints` mapping, and
overwrites `angles` with the `None` returned by
`generate_angle_measurements`. -/
def BlazePoseFrame.init (frame_data : List (String × PyVal)) :
    Except PoseError BlazePoseFrame := do
  let frame_number ← getItem frame_data "frame_number"
  let jp ← getItem frame_data "joint_positions"
  let has := jp.truthy
  let image_dimensions ← getItem frame_data "image_dimensions"
  let sequence_id ← getItem frame_data "sequence_id"
  let sequence_source ← getItem frame_data "sequence_source"
  if has then do
    let _ ← validate_joint_position_data jp
    let joints ← setJointsLoop image_dimensions jp jointPositionNames
    let (pl, angles) ← generate_angle_measurements true joints
    .ok { frame_number := frame_number, has_joint_positions := true,
          image_dimensions := image_dimensions, sequence_id := sequence_id,
          sequence_source := sequence_source, joints := joints,
          angles := angles, joint_positions_raw := some jp,
          plumb_line_vector := pl }
  else
    .ok { frame_number := frame_number, has_joint_positions := false,
          image_dimensions := image_dimensions, sequence_id := sequence_id,
          sequence_source := sequence_source, joints := [],
          angles := some [], joint_positions_raw := none,
          plumb_line_vector := none }

/-- The `required_keys` list of `BlazePoseSequence.validate_pose_schema`. -/
def sequenceRequiredKeys : List String :=
  ["sequence_id", "sequence_source", "frame_number", "image_dimensions",
   "joint_positions"]

/-- First joint of `names` missing from the `joint_positions` value, mirroring
the `for pos in self.joint_positions` loop of `validate_pose_schema`. -/
def firstMissingJoint (joint_positions : PyVal) : List String → Option String
  | [] => none
  | pos :: rest =>
    if joint_positions.containsKey pos then firstMissingJoint joint_positions rest
    else some pos

/-- Embedding of `BlazePoseSequence.validate_pose_schema`: the five top-level
keys must be present; an entry whose `joint_positions` is falsy (e.g. an empty
dict) is accepted; otherwise every vocabulary joint name must be present in
`joint_positions`. Nothing inside the per-joint records is inspected here. -/
def validate_pose_schema (frame_data : List (String × PyVal)) :
    Except PoseError Bool :=
  match firstMissingKey (.dict frame_data) sequenceRequiredKeys with
  | some k =>
    .error (.sequenceError ("Validation error - " ++ k ++ " is missing from frame data"))
  | none => do
    let joint_positions ← getItem frame_data "joint_positions"
    if ¬ joint_positions.truthy then .ok true
    else
      match firstMissingJoint joint_positions jointPositionNames with
      | some pos =>
        .error (.sequenceError ("Validation error - " ++ pos ++ " is missing from joint position data"))
      | none => .ok true

/-- The `for frame in sequence` loop of `BlazePoseSequence.__init__`,
including the source's (unreachable) `raise` for a `False` return of
`validate_pose_schema`. -/
def validateSequenceLoop :
    List (List (String × PyVal)) → Except PoseError Unit
  | [] => .ok ()
  | frame :: rest => do
    let b ← validate_pose_schema frame
    if ¬ b then .error (.sequenceError "Validation error!")
    else validateSequenceLoop rest

/-- The `BlazePoseSequence` record: the raw entries and the materialised
frames. -/
structure BlazePoseSequence where
  sequence_data : List (List (String × PyVal))
  frames : List BlazePoseFrame

/-- Embedding of `BlazePoseSequence.__init__`: every entry is validated in
order — the first validation error aborts construction before
`self.sequence_data` or `self.frames` is assigned — and on success the
sequence holds the input entries and an empty frame list. -/
def BlazePoseSequence.init (sequence : List (List (String × PyVal))) :
    Except PoseError BlazePoseSequence := do
  let _ ← validateSequenceLoop sequence
  .ok { sequence_data := sequence, frames := [] }

/-- The `for frame_data in self.sequence_data` loop of
`generate_blaze_pose_frames_from_sequence`: construct a `BlazePoseFrame` per
entry, in order (the first construction error aborts). -/
def framesOf :
    List (List (String × PyVal)) → Except PoseError (List BlazePoseFrame)
  | [] => .ok []
  | fd :: rest => do
    let bpf ← BlazePoseFrame.init fd
    let more ← framesOf rest
    .ok (bpf :: more)

/-- Embedding of `BlazePoseSequence.generate_blaze_pose_frames_from_sequence`:
appends one frame per raw entry, in order, to `self.frames`. -/
def generate_blaze_pose_frames_from_sequence (s : BlazePoseSequence) :
    Except PoseError BlazePoseSequence := do
  let fs ← framesOf s.sequence_data
  .ok { s with frames := s.frames ++ fs }

/-- Dot product of 2-component vectors (`np.dot` on the length-2 slices). -/
def dot2 (u v : ℝ × ℝ) : ℝ := u.1 * v.1 + u.2 * v.2

/-- Dot product of 3-component vectors (`np.dot`). -/
def dot3 (u v : ℝ × ℝ × ℝ) : ℝ :=
  u.1 * v.1 + u.2.1 * v.2.1 + u.2.2 * v.2.2

/-- Euclidean norm of a 2-component vector (`np.linalg.norm`). -/
noncomputable def norm2v (u : ℝ × ℝ) : ℝ := Real.sqrt (dot2 u u)

/-- Euclidean norm of a 3-component vector (`np.linalg.norm`). -/
noncomputable def norm3v (u : ℝ × ℝ × ℝ) : ℝ := Real.sqrt (dot3 u u)

/-- Embedding of `Angle.unit_vector` on a 2-component vector:
`vector / np.linalg.norm(vector)`, componentwise. -/
noncomputable def unitVector2 (u : ℝ × ℝ) : ℝ × ℝ :=
  (u.1 / norm2v u, u.2 / norm2v u)

/-- Embedding of `Angle.unit_vector` on a 3-component vector. -/
noncomputable def unitVector3 (u : ℝ × ℝ × ℝ) : ℝ × ℝ × ℝ :=
  (u.1 / norm3v u, u.2.1 / norm3v u, u.2.2 / norm3v u)

/-- Embedding of `np.clip(x, lo, hi)`. -/
def npClip (x lo hi : ℝ) : ℝ := min (max x lo) hi

/-- Embedding of `np.degrees(x)`: radians-to-degrees conversion. -/
noncomputable def npDegrees (x : ℝ) : ℝ := x * 180 / Real.pi

/-- Embedding of `Angle.angle_between` on the 2-component slices:
`np.arccos(np.clip(np.dot(v1_u, v2_u), -1.0, 1.0))`. -/
noncomputable def angleBetween2 (u v : ℝ × ℝ) : ℝ :=
  Real.arccos (npClip (dot2 (unitVector2 u) (unitVector2 v)) (-1) 1)

/-- Embedding of `Angle.angle_between` on 3-component vectors. -/
noncomputable def angleBetween3 (u v : ℝ × ℝ × ℝ) : ℝ :=
  Real.arccos (npClip (dot3 (unitVector3 u) (unitVector3 v)) (-1) 1)

/-- First two components of a 3-component vector: the Python slice
`vector[:2]`. -/
def firstTwo (u : ℝ × ℝ × ℝ) : ℝ × ℝ := (u.1, u.2.1)

/-- The `Angle` data structure: 2D and 3D angles between two vectors, in
radians and degrees. -/
structure Angle where
  name : String
  vector_1 : ℝ × ℝ × ℝ
  vector_2 : ℝ × ℝ × ℝ
  angle_2d : ℝ
  angle_3d : ℝ
  angle_2d_radians : ℝ
  angle_3d_radians : ℝ
  angle_2d_degrees : ℝ
  angle_3d_degrees : ℝ

/-- Embedding of `Angle.__init__`: `angle_2d` from the `[:2]` slices,
`angle_3d` from the `[:3]` slices, the `_radians` aliases, and the
`np.degrees` conversions. -/
noncomputable def Angle.init (name : String) (v1 v2 : ℝ × ℝ × ℝ) : Angle :=
  let a2 := angleBetween2 (firstTwo v1) (firstTwo v2)
  let a3 := angleBetween3 v1 v2
  { name := name, vector_1 := v1, vector_2 := v2,
    angle_2d := a2, angle_3d := a3,
    angle_2d_radians := a2, angle_3d_radians := a3,
    angle_2d_degrees := npDegrees a2, angle_3d_degrees := npDegrees a3 }

/-- Concrete image-dimension record used by the test fixtures. -/
def dims1 : PyVal := .dict [("height", .int 1080), ("width", .int 1920)]

/-- A complete raw coordinate record carrying all six coordinate keys. -/
def coordRec (q : ℚ) : PyVal :=
  .dict [("x", .num q), ("y", .num q), ("z", .num q),
         ("x_normalized", .num q), ("y_normalized", .num q),
         ("z_normalized", .num q)]

/-- A raw coordinate record for `nose` that is missing the `z` key. -/
def noseBadRec : PyVal :=
  .dict [("x", .num 1), ("y", .num 1),
         ("x_normalized", .num 1), ("y_normalized", .num 1),
         ("z_normalized", .num 1)]

/-- Full `joint_positions` record: every vocabulary joint with a complete
coordinate record. -/
def jpGood : PyVal :=
  .dict (jointPositionNames.map fun n => (n, coordRec 1))

/-- Defective `joint_positions` record: every vocabulary joint present, but
the `nose` record lacks its `z` coordinate key. -/
def jpBad : PyVal :=
  .dict (jointPositionNames.map fun n =>
    (n, if n = "nose" then noseBadRec else coordRec 1))

/-- Raw frame entry with all top-level keys and fully valid, non-empty
`joint_positions`. -/
def entryGood : List (String × PyVal) :=
  [("sequence_id", .int 7), ("sequence_source", .str "mediapipe"),
   ("frame_number", .int 1), ("image_dimensions", dims1),
   ("joint_positions", jpGood)]

/-- Raw frame entry with all top-level keys, all 33 joint names present, but
`nose` missing its `z` coordinate key. -/
def entryBad : List (String × PyVal) :=
  [("sequence_id", .int 7), ("sequence_source", .str "mediapipe"),
   ("frame_number", .int 1), ("image_dimensions", dims1),
   ("joint_positions", jpBad)]

/-- Raw frame entry with all top-level keys and an empty `joint_positions`
sub-record. -/
def entryEmpty : List (String × PyVal) :=
  [("sequence_id", .int 7), ("sequence_source", .str "mediapipe"),
   ("frame_number", .int 1), ("image_dimensions", dims1),
   ("joint_positions", .dict [])]

/-- A concrete `Joint` value for the `get_vector` and plumb-line fixtures. -/
def mkJoint (name : String) (a b c an bn cn : ℚ) : Joint :=
  { name := name, image_dimensions := dims1, x := a, y := b, z := c,
    x_normalized := an, y_normalized := bn, z_normalized := cn }

/-- A two-joint `joints` mapping with distinct raw and image-scaled
coordinates for each joint. -/
def jointsPairFixture : List (String × Joint) :=
  [("nose", mkJoint "nose" 1 2 3 10 20 30),
   ("left_hip", mkJoint "left_hip" 4 5 6 40 50 60)]

/-- Concrete left-shoulder joint for the plumb-line fixture. -/
def lsW : Joint := mkJoint "left_shoulder" 1 2 3 10 20 30

/-- Concrete right-shoulder joint for the plumb-line fixture. -/
def rsW : Joint := mkJoint "right_shoulder" 3 4 5 30 40 50

/-- Concrete left-hip joint for the plumb-line fixture. -/
def lhW : Joint := mkJoint "left_hip" 5 6 7 50 60 70

/-- Concrete right-hip joint for the plumb-line fixture. -/
def rhW : Joint := mkJoint "right_hip" 7 8 9 70 80 90

/-- A `joints` mapping with the two shoulder and two hip joints. -/
def torsoFixture : List (String × Joint) :=
  [("left_shoulder", lsW), ("right_shoulder", rsW),
   ("left_hip", lhW), ("right_hip", rhW)]

/-- Joint record carrying all seven required keys plus an unrecognized
`visibility` key. -/
def jointDataExtra : List (String × PyVal) :=
  [("visibility", .num 0), ("x", .num 1), ("y", .num 2), ("z", .num 3),
   ("x_normalized", .num 4), ("y_normalized", .num 5),
   ("z_normalized", .num 6), ("image_dimensions", dims1)]

/-- The frame value `BlazePoseFrame.__init__` produces from `entryEmpty`. -/
def frameOfEmptyEntry : BlazePoseFrame :=
  { frame_number := .int 1, has_joint_positions := false,
    image_dimensions := dims1, sequence_id := .int 7,
    sequence_source := .str "mediapipe", joints := [], angles := some [],
    joint_positions_raw := none, plumb_line_vector := none }

/-! Helper lemmas. -/

/-- Bind of a success on `Except` applies the continuation. -/
theorem ok_bind {α β : Type} (a : α) (f : α → Except PoseError β) :
    (Except.ok a >>= f : Except PoseError β) = f a := rfl

/-- Bind of a failure on `Except` propagates the failure. -/
theorem error_bind {α β : Type} (e : PoseError) (f : α → Except PoseError β) :
    (Except.error e >>= f : Except PoseError β) = .error e := rfl

/-- If every key of `keys` is present in `v`, the missing-key scan finds
nothing. -/
theorem firstMissingKey_eq_none (v : PyVal) (keys : List String)
    (h : ∀ k ∈ keys, v.containsKey k = true) :
    firstMissingKey v keys = none := by
  induction keys with
  | nil => rfl
  | cons k ks ih =>
    simp only [firstMissingKey, h k (by simp)]
    exact ih fun k2 hk2 => h k2 (by simp [hk2])

/-- If every name of `names` is present in `v`, the missing-joint scan finds
nothing. -/
theorem firstMissingJoint_eq_none (v : PyVal) (names : List String)
    (h : ∀ n ∈ names, v.containsKey n = true) :
    firstMissingJoint v names = none := by
  induction names with
  | nil => rfl
  | cons n ns ih =>
    simp only [firstMissingJoint, h n (by simp)]
    exact ih fun n2 hn2 => h n2 (by simp [hn2])

/-- Every success of `validate_pose_schema` returns `True`: the `False`
branch of the `BlazePoseSequence.__init__` loop is unreachable. -/
theorem validate_pose_schema_ok_true (fd : List (String × PyVal)) (b : Bool)
    (h : validate_pose_schema fd = .ok b) : b = true := by
  unfold validate_pose_schema at h
  split at h
  · cases h
  · cases hg : getItem fd "joint_positions" with
    | error e => rw [hg, error_bind] at h; cases h
    | ok jp =>
      rw [hg, ok_bind] at h
      split at h
      · exact (Except.ok.inj h).symm
      · split at h
        · cases h
        · exact (Except.ok.inj h).symm

/-- A validated head entry is skipped by the sequence-validation loop. -/
theorem loop_cons_ok (e : List (String × PyVal))
    (rest : List (List (String × PyVal)))
    (h : validate_pose_schema e = .ok true) :
    validateSequenceLoop (e :: rest) = validateSequenceLoop rest := by
  show (validate_pose_schema e >>= fun b =>
    if ¬ b then .error (.sequenceError "Validation error!")
    else validateSequenceLoop rest) = validateSequenceLoop rest
  rw [h, ok_bind]
  simp

/-- A failing head entry aborts the sequence-validation loop with its error.
-/
theorem loop_cons_error (e : List (String × PyVal))
    (rest : List (List (String × PyVal))) (err : PoseError)
    (h : validate_pose_schema e = .error err) :
    validateSequenceLoop (e :: rest) = .error err := by
  show (validate_pose_schema e >>= fun b =>
    if ¬ b then .error (.sequenceError "Validation error!")
    else validateSequenceLoop rest) = .error err
  rw [h, error_bind]

/-- Sequence construction fails exactly when the validation loop fails, with
the same error. -/
theorem init_eq_error (data : List (List (String × PyVal))) (err : PoseError) :
    BlazePoseSequence.init data = .error err ↔
      validateSequenceLoop data = .error err := by
  unfold BlazePoseSequence.init
  cases h : validateSequenceLoop data with
  | error e =>
    rw [error_bind]
    constructor <;> intro hh <;> exact congrArg Except.error (Except.error.inj hh)
  | ok u => cases u; rw [ok_bind]; simp

/-- A successfully constructed sequence holds exactly the input entries and
an empty frame list. -/
theorem init_ok_shape (data : List (List (String × PyVal)))
    (s : BlazePoseSequence) (h : BlazePoseSequence.init data = .ok s) :
    s = { sequence_data := data, frames := [] } := by
  unfold BlazePoseSequence.init at h
  cases hv : validateSequenceLoop data with
  | error e => rw [hv, error_bind] at h; exact Except.noConfusion h
  | ok u => cases u; rw [hv, ok_bind] at h; exact (Except.ok.inj h).symm

/-- A successful `framesOf` run yields one frame per entry, in order. -/
theorem framesOf_spec (data : List (List (String × PyVal)))
    (fs : List BlazePoseFrame) (h : framesOf data = .ok fs) :
    fs.length = data.length ∧
    ∀ i, ∀ hi : i < data.length, ∀ hi2 : i < fs.length,
      BlazePoseFrame.init (data.get ⟨i, hi⟩) = .ok (fs.get ⟨i, hi2⟩) := by
  induction data generalizing fs with
  | nil =>
    unfold framesOf at h
    cases h
    exact ⟨rfl, by intro i hi; simp at hi⟩
  | cons e rest ih =>
    unfold framesOf at h
    cases hf : BlazePoseFrame.init e with
    | error err => rw [hf, error_bind] at h; cases h
    | ok bpf =>
      rw [hf, ok_bind] at h
      cases hr : framesOf rest with
      | error err => rw [hr, error_bind] at h; cases h
      | ok more =>
        rw [hr, ok_bind] at h
        cases h
        obtain ⟨hlen, hpt⟩ := ih more hr
        refine ⟨by simp [hlen], ?_⟩
        intro i hi hi2
        cases i with
        | zero => simpa using hf
        | succ i2 =>
          exact hpt i2 (by simpa using Nat.lt_of_succ_lt_succ hi)
            (by simpa using Nat.lt_of_succ_lt_succ hi2)

/-- The squared norm of a 3-vector is `1` exactly when its norm is. -/
theorem norm3v_eq_one_iff (u : ℝ × ℝ × ℝ) : norm3v u = 1 ↔ dot3 u u = 1 := by
  unfold norm3v
  exact Real.sqrt_eq_one

/-- Normalizing a unit 3-vector is the identity. -/
theorem unitVector3_of_norm_one (u : ℝ × ℝ × ℝ) (hu : norm3v u = 1) :
    unitVector3 u = u := by
  unfold unitVector3
  rw [hu]
  simp

/-! Claim theorems. -/

/-- Claim C1, counterexample: `entryBad` has all five top-level keys and all
33 vocabulary joint names, but its `nose` record is missing the `z`
coordinate key — and `validate_pose_schema` (the validation run at
`BlazePoseSequence` construction) accepts it, returning success instead of
failing with a validation error naming the missing coordinate key. -/
theorem validate_pose_schema_accepts_missing_coordinate_key :
    validate_pose_schema entryBad = .ok true := rfl

/-- Claim C1, amended: for every raw sequence entry with all five top-level
keys and a non-empty `joint_positions` record containing all 33 vocabulary
joint names, `validate_pose_schema` succeeds regardless of which coordinate
keys the per-joint records carry: sequence-level validation checks only the
top-level keys and the joint names, never the coordinate keys (those are
checked later, at `BlazePoseFrame` construction). -/
theorem validate_pose_schema_checks_only_names
    (fd : List (String × PyVal)) (jp : List (String × PyVal))
    (htop : ∀ k ∈ sequenceRequiredKeys, dictContains fd k = true)
    (hjp : assocLookup fd "joint_positions" = some (.dict jp))
    (hne : jp ≠ [])
    (hall : ∀ n ∈ jointPositionNames, dictContains jp n = true) :
    validate_pose_schema fd = .ok true := by
  have h1 : firstMissingKey (.dict fd) sequenceRequiredKeys = none :=
    firstMissingKey_eq_none _ _
      (by simpa [PyVal.containsKey, PyVal.asDict] using htop)
  have h2 : firstMissingJoint (.dict jp) jointPositionNames = none :=
    firstMissingJoint_eq_none _ _
      (by simpa [PyVal.containsKey, PyVal.asDict] using hall)
  simp [validate_pose_schema, h1, getItem, hjp, ok_bind, PyVal.truthy, hne, h2]

/-- Claim C1, witness for the amended theorem: instantiated at `entryBad`.
-/
theorem validate_pose_schema_checks_only_names_witness :
    validate_pose_schema entryBad = .ok true :=
  validate_pose_schema_checks_only_names entryBad
    (jointPositionNames.map fun n => (n, if n = "nose" then noseBadRec else coordRec 1))
    (by decide) rfl (by simp [jointPositionNames]) (by decide)

/-- Claim C2: a joint record missing one of the seven required keys (here
`x`) does NOT fail with a `JointError` — the inverted membership check in
`Joint.__init__` accepts it, and construction then fails with the untyped
`KeyError` from the plain `joint_data["x"]` subscript. This contradicts the
claim, and the constructor's own error message ("The required data is
missing from the joint data dictionary.") shows the check was intended to
detect missing required keys. -/
theorem joint_init_missing_key_raises_keyerror :
    Joint.init "nose"
      [("y", .num 2), ("z", .num 3), ("x_normalized", .num 4),
       ("y_normalized", .num 5), ("z_normalized", .num 6),
       ("image_dimensions", dims1)] = .error (.keyError "x") := rfl

set_option maxRecDepth 20000 in
/-- Claim C3: for the fully valid non-empty raw frame entry `entryGood`,
`BlazePoseFrame` construction succeeds on the joints-present path, but the
resulting `angles` attribute is Python `None` (the value returned by
`generate_angle_measurements`, which computes the plumb line but returns
nothing), not a dictionary of named `Angle` values as the claim states. -/
theorem frame_init_angles_is_none :
    Except.map (fun f => f.angles) (BlazePoseFrame.init entryGood) =
        .ok none ∧
    Except.map (fun f => f.has_joint_positions)
        (BlazePoseFrame.init entryGood) = .ok true := ⟨rfl, rfl⟩

/-- Claim C4: the minimally repaired `get_plumbline_vector` (the source's
three `*1_normalized` lines drop an opening parenthesis, a SyntaxError under
which the module cannot load) returns the segment from the shoulder midpoint
to the hip midpoint, once from the raw coordinates and once from the
image-scaled coordinates. -/
theorem plumbline_vector_midpoints (joints : List (String × Joint))
    (ls rs lh rh : Joint)
    (h1 : assocLookup joints "left_shoulder" = some ls)
    (h2 : assocLookup joints "right_shoulder" = some rs)
    (h3 : assocLookup joints "left_hip" = some lh)
    (h4 : assocLookup joints "right_hip" = some rh) :
    get_plumbline_vector joints = .ok
      ((((ls.x + rs.x) / 2, (ls.y + rs.y) / 2, (ls.z + rs.z) / 2),
        ((lh.x + rh.x) / 2, (lh.y + rh.y) / 2, (lh.z + rh.z) / 2)),
       (((ls.x_normalized + rs.x_normalized) / 2,
         (ls.y_normalized + rs.y_normalized) / 2,
         (ls.z_normalized + rs.z_normalized) / 2),
        ((lh.x_normalized + rh.x_normalized) / 2,
         (lh.y_normalized + rh.y_normalized) / 2,
         (lh.z_normalized + rh.z_normalized) / 2))) := by
  simp [get_plumbline_vector, jointsGet, h1, h2, h3, h4, ok_bind]

/-- Claim C4, witness: the repaired plumb-line computation on a concrete
four-joint torso fixture. -/
theorem plumbline_vector_midpoints_witness :
    get_plumbline_vector torsoFixture = .ok
      ((((lsW.x + rsW.x) / 2, (lsW.y + rsW.y) / 2, (lsW.z + rsW.z) / 2),
        ((lhW.x + rhW.x) / 2, (lhW.y + rhW.y) / 2, (lhW.z + rhW.z) / 2)),
       (((lsW.x_normalized + rsW.x_normalized) / 2,
         (lsW.y_normalized + rsW.y_normalized) / 2,
         (lsW.z_normalized + rsW.z_normalized) / 2),
        ((lhW.x_normalized + rhW.x_normalized) / 2,
         (lhW.y_normalized + rhW.y_normalized) / 2,
         (lhW.z_normalized + rhW.z_normalized) / 2))) :=
  plumbline_vector_midpoints torsoFixture lsW rsW lhW rhW rfl rfl rfl rfl

/-- Claim C5: `get_vector` as written does not return the directed segment
from the first joint to the second in two coordinate spaces: on a fixture
where `nose` has raw coordinates `(1,2,3)` (image-scaled `(10,20,30)`) and
`left_hip` has raw `(4,5,6)` (image-scaled `(40,50,60)`), both endpoints of
the first segment are `nose`'s raw coordinates, and both endpoints of the
second, "normalized" segment are `left_hip`'s RAW coordinates — the
`*_normalized` attributes are never read. -/
theorem get_vector_reuses_first_joint_and_raw_coords :
    get_vector jointsPairFixture "nose" "left_hip" =
      .ok (((1, 2, 3), (1, 2, 3)), ((4, 5, 6), (4, 5, 6))) := rfl

/-- Claim C6, counterexample: the sequence `[entryBad]` (all 33 joint names
present, `nose` missing its `z` key) passes `BlazePoseSequence`
construction, yet the frame-generation step fails with a
`BlazePoseFrameError`: frame construction re-runs (stricter, per-key)
validation and can fail on an entry the sequence accepted. -/
theorem sequence_construction_ok_but_generation_fails :
    BlazePoseSequence.init [entryBad] =
      .ok { sequence_data := [entryBad], frames := [] } ∧
    generate_blaze_pose_frames_from_sequence
        { sequence_data := [entryBad], frames := [] } =
      .error (.frameError "z missing from nose position data") := ⟨rfl, rfl⟩

/-- Claim C6, amended: for a successfully constructed `BlazePoseSequence`
over `N` entries, IF the per-entry frame constructions all succeed (frame
construction re-runs joint-level validation, so this is not guaranteed by
sequence validation), then the generation step produces exactly `N` frames,
in the same order as `sequence_data`. -/
theorem generate_frames_order_after_validation
    (data : List (List (String × PyVal))) (s : BlazePoseSequence)
    (fs : List BlazePoseFrame)
    (h1 : BlazePoseSequence.init data = .ok s)
    (h2 : framesOf data = .ok fs) :
    generate_blaze_pose_frames_from_sequence s =
      .ok { sequence_data := data, frames := fs } ∧
    fs.length = data.length ∧
    ∀ i, ∀ hi : i < data.length, ∀ hi2 : i < fs.length,
      BlazePoseFrame.init (data.get ⟨i, hi⟩) = .ok (fs.get ⟨i, hi2⟩) := by
  obtain rfl := init_ok_shape data s h1
  obtain ⟨hlen, hpt⟩ := framesOf_spec data fs h2
  refine ⟨?_, hlen, hpt⟩
  unfold generate_blaze_pose_frames_from_sequence
  rw [show ({ sequence_data := data, frames := [] } :
    BlazePoseSequence).sequence_data = data from rfl, h2, ok_bind]
  simp

/-- Claim C6, witness for the amended theorem: a one-entry sequence whose
entry has empty joint positions generates exactly one frame. -/
theorem generate_frames_order_after_validation_witness :
    generate_blaze_pose_frames_from_sequence
        { sequence_data := [entryEmpty], frames := [] } =
      .ok { sequence_data := [entryEmpty], frames := [frameOfEmptyEntry] } :=
  (generate_frames_order_after_validation [entryEmpty]
    { sequence_data := [entryEmpty], frames := [] } [frameOfEmptyEntry]
    rfl rfl).1

/-- Claim C7: if any entry of the input list fails `validate_pose_schema`,
then `BlazePoseSequence` construction fails entirely with the validation
error of the first invalid entry (every earlier entry validates), and no
sequence value — hence no `sequence_data` and no `frames` — is produced. -/
theorem sequence_validation_all_or_nothing
    (data : List (List (String × PyVal)))
    (h : ∃ e ∈ data, ∃ err, validate_pose_schema e = .error err) :
    ∃ k, ∃ hk : k < data.length, ∃ err : PoseError,
      validate_pose_schema (data.get ⟨k, hk⟩) = .error err ∧
      (∀ j, ∀ hj : j < data.length, j < k →
        validate_pose_schema (data.get ⟨j, hj⟩) = .ok true) ∧
      BlazePoseSequence.init data = .error err := by
  induction data with
  | nil => simp at h
  | cons e rest ih =>
    cases hv : validate_pose_schema e with
    | error err =>
      refine ⟨0, by simp, err, by simpa using hv, ?_, ?_⟩
      · intro j hj hj0; omega
      · exact (init_eq_error _ _).mpr (loop_cons_error e rest err hv)
    | ok b =>
      have hb := validate_pose_schema_ok_true e b hv
      subst hb
      have hrest : ∃ e2 ∈ rest, ∃ err, validate_pose_schema e2 = .error err := by
        obtain ⟨e2, he2, err, herr⟩ := h
        rcases List.mem_cons.mp he2 with rfl | hmem
        · rw [hv] at herr; cases herr
        · exact ⟨e2, hmem, err, herr⟩
      obtain ⟨k, hk, err, hval, hpre, hinit⟩ := ih hrest
      refine ⟨k + 1, by simpa using Nat.succ_lt_succ hk, err,
        by simpa using hval, ?_, ?_⟩
      · intro j hj hjk
        cases j with
        | zero => simpa using hv
        | succ j2 =>
          have hlt : j2 < k := Nat.lt_of_succ_lt_succ hjk
          have hj2 : j2 < rest.length := by
            simpa using Nat.lt_of_succ_lt_succ hj
          simpa using hpre j2 hj2 hlt
      · rw [init_eq_error, loop_cons_ok e rest hv]
        exact (init_eq_error _ _).mp hinit

/-- Claim C7, witness: a one-entry sequence whose entry is the empty record
fails construction with the validation error naming the first missing
top-level key. -/
theorem sequence_validation_all_or_nothing_witness :
    ∃ k, ∃ hk : k < ([([] : List (String × PyVal))] :
        List (List (String × PyVal))).length, ∃ err : PoseError,
      validate_pose_schema (([([] : List (String × PyVal))] :
        List (List (String × PyVal))).get ⟨k, hk⟩) = .error err ∧
      (∀ j, ∀ hj : j < ([([] : List (String × PyVal))] :
          List (List (String × PyVal))).length, j < k →
        validate_pose_schema (([([] : List (String × PyVal))] :
          List (List (String × PyVal))).get ⟨j, hj⟩) = .ok true) ∧
      BlazePoseSequence.init [([] : List (String × PyVal))] = .error err :=
  sequence_validation_all_or_nothing [([] : List (String × PyVal))]
    ⟨[], by simp,
     .sequenceError "Validation error - sequence_id is missing from frame data",
     rfl⟩

/-- Claim C8: the `Angle` computation returns arccos of the clamped dot
product of the unit vectors — the 2D angle from the first two components,
the 3D angle from all three, the degree fields by linear conversion of the
radian fields — so identical unit vectors give angle `0`, exactly opposite
unit vectors give `π`, and orthogonal unit vectors give `π / 2`. -/
theorem angle_computation_properties (n : String) (u v : ℝ × ℝ × ℝ)
    (hu : norm3v u = 1) (hv : norm3v v = 1) (huv : dot3 u v = 0) :
    (Angle.init n u u).angle_3d = 0 ∧
    (Angle.init n u (-u)).angle_3d = Real.pi ∧
    (Angle.init n u v).angle_3d = Real.pi / 2 ∧
    (∀ a b : ℝ × ℝ × ℝ, (Angle.init n a b).angle_3d =
      Real.arccos (npClip (dot3 (unitVector3 a) (unitVector3 b)) (-1) 1)) ∧
    (∀ a b : ℝ × ℝ × ℝ, (Angle.init n a b).angle_2d =
      Real.arccos (npClip
        (dot2 (unitVector2 (firstTwo a)) (unitVector2 (firstTwo b))) (-1) 1)) ∧
    (∀ a b : ℝ × ℝ × ℝ,
      (Angle.init n a b).angle_2d_degrees =
        npDegrees ((Angle.init n a b).angle_2d_radians) ∧
      (Angle.init n a b).angle_3d_degrees =
        npDegrees ((Angle.init n a b).angle_3d_radians)) := by
  have hdot : dot3 u u = 1 := (norm3v_eq_one_iff u).mp hu
  have huu : unitVector3 u = u := unitVector3_of_norm_one u hu
  have hvv : unitVector3 v = v := unitVector3_of_norm_one v hv
  refine ⟨?_, ?_, ?_, fun a b => rfl, fun a b => rfl, fun a b => ⟨rfl, rfl⟩⟩
  · show angleBetween3 u u = 0
    rw [angleBetween3, huu, hdot]
    norm_num [npClip, Real.arccos_one]
  · show angleBetween3 u (-u) = Real.pi
    have hnormneg : norm3v (-u) = 1 := by
      rw [norm3v_eq_one_iff]
      have hsq : dot3 (-u) (-u) = dot3 u u := by
        obtain ⟨u1, u2, u3⟩ := u
        simp [dot3]
      rw [hsq, hdot]
    have hneg : unitVector3 (-u) = -u := unitVector3_of_norm_one (-u) hnormneg
    have hdotneg : dot3 u (-u) = -1 := by
      obtain ⟨u1, u2, u3⟩ := u
      simp only [dot3] at hdot ⊢
      simp only [Prod.neg_mk, Prod.fst, Prod.snd]
      nlinarith [hdot]
    rw [angleBetween3, huu, hneg, hdotneg]
    norm_num [npClip, Real.arccos_neg_one]
  · show angleBetween3 u v = Real.pi / 2
    rw [angleBetween3, huu, hvv, huv]
    norm_num [npClip, Real.arccos_zero]

/-- Claim C8, witness: the angle properties instantiated at the unit vectors
`(1,0,0)` and `(0,1,0)`. -/
theorem angle_computation_properties_witness :
    norm3v (1, 0, 0) = 1 ∧ norm3v (0, 1, 0) = 1 ∧
    dot3 (1, 0, 0) (0, 1, 0) = 0 ∧
    (Angle.init "torso" (1, 0, 0) (1, 0, 0)).angle_3d = 0 ∧
    (Angle.init "torso" (1, 0, 0) (-(1, 0, 0))).angle_3d = Real.pi ∧
    (Angle.init "torso" (1, 0, 0) (0, 1, 0)).angle_3d = Real.pi / 2 := by
  have h1 : norm3v ((1 : ℝ), 0, 0) = 1 := by
    rw [norm3v_eq_one_iff]; norm_num [dot3]
  have h2 : norm3v ((0 : ℝ), 1, 0) = 1 := by
    rw [norm3v_eq_one_iff]; norm_num [dot3]
  have h3 : dot3 ((1 : ℝ), 0, 0) ((0 : ℝ), 1, 0) = 0 := by norm_num [dot3]
  obtain ⟨c1, c2, c3, _, _, _⟩ :=
    angle_computation_properties "torso" (1, 0, 0) (0, 1, 0) h1 h2 h3
  exact ⟨h1, h2, h3, c1, c2, c3⟩

/-- Claim C9: a raw frame record with all required top-level keys and an
empty `joint_positions` sub-record constructs a `BlazePoseFrame` without any
error, with `has_joint_positions = false`, an empty `joints` mapping, and an
empty `angles` mapping. -/
theorem frame_init_empty_joint_positions (fd : List (String × PyVal))
    (v1 v2 v3 v4 : PyVal)
    (h1 : assocLookup fd "frame_number" = some v1)
    (hjp : assocLookup fd "joint_positions" = some (.dict []))
    (h2 : assocLookup fd "image_dimensions" = some v2)
    (h3 : assocLookup fd "sequence_id" = some v3)
    (h4 : assocLookup fd "sequence_source" = some v4) :
    BlazePoseFrame.init fd =
      .ok { frame_number := v1, has_joint_positions := false,
            image_dimensions := v2, sequence_id := v3, sequence_source := v4,
            joints := [], angles := some [], joint_positions_raw := none,
            plumb_line_vector := none } := by
  simp [BlazePoseFrame.init, getItem, h1, hjp, h2, h3, h4, PyVal.truthy,
    ok_bind]

/-- Claim C9, witness: instantiated at the concrete entry `entryEmpty`. -/
theorem frame_init_empty_joint_positions_witness :
    BlazePoseFrame.init entryEmpty = .ok frameOfEmptyEntry :=
  frame_init_empty_joint_positions entryEmpty (.int 1) dims1 (.int 7)
    (.str "mediapipe") rfl rfl rfl rfl rfl

/-- Claim C10: a joint record containing all seven required keys plus at
least one key outside the required set is rejected by `Joint.__init__` with
a `JointError`: the membership check refuses any unrecognized key. -/
theorem joint_init_rejects_unrecognized_keys (name : String)
    (jd : List (String × PyVal))
    (hreq : ∀ k ∈ jointRequiredKeys, dictContains jd k = true)
    (kv : String × PyVal) (hmem : kv ∈ jd)
    (hnot : kv.1 ∉ jointRequiredKeys) :
    Joint.init name jd =
      .error (.jointError "The required data is missing from the joint data dictionary.") := by
  have hall : jd.all (fun kv => jointRequiredKeys.contains kv.1) = false := by
    rw [List.all_eq_false]
    exact ⟨kv, hmem, by simp [hnot]⟩
  unfold Joint.init
  rw [hall]
  simp

/-- Claim C10, witness: a record with the seven required keys plus an extra
`visibility` key is rejected. -/
theorem joint_init_rejects_unrecognized_keys_witness :
    (∀ k ∈ jointRequiredKeys, dictContains jointDataExtra k = true) ∧
    Joint.init "nose" jointDataExtra =
      .error (.jointError "The required data is missing from the joint data dictionary.") :=
  ⟨by decide,
   joint_init_rejects_unrecognized_keys "nose" jointDataExtra (by decide)
     ("visibility", .num 0) (List.mem_cons_self _ _) (by decide)⟩

end StreamPoseML
